import Mathlib

/-!
Verification of the taiga-mcp session registry and optimistic-update protocol.

This file gives a shallow embedding of the session / auth / update code of the
repository (src/src/tools/common.py, auth.py, project.py, story.py, task.py,
issue.py, epic.py, milestone.py) and proves the specification claims about it.

Python dictionaries are modelled as association lists, Python exceptions as a
tagged error type, and the backend REST client as a record of response
functions.  Every tool function additionally returns the list of API calls it
issued, so that protocol claims (exactly one get followed by one edit, etc.)
can be stated about the call trace.
-/

set_option autoImplicit false

namespace TaigaMcp

/-- A Python value as it appears in the JSON-style dictionaries the tools
manipulate: None, bool, int, str, list, dict. -/
inductive Val where
  | vnull
  | vbool (b : Bool)
  | vint (n : Int)
  | vstr (s : String)
  | vlist (xs : List Val)
  | vdict (fields : List (String × Val))

/-- Python truthiness (`bool(v)`) for the values above: None, False, 0, empty
string, empty list and empty dict are falsy. -/
def pyTruthy : Val → Bool
  | .vnull => false
  | .vbool b => b
  | .vint n => n != 0
  | .vstr s => s != ""
  | .vlist xs => !xs.isEmpty
  | .vdict d => !d.isEmpty

/-- A Python dict with string keys, as an association list (keys unique by
construction in the code being modelled). -/
abbrev Entity := List (String × Val)

/-- Python `d.get(k)`: the value stored under the first occurrence of key `k`,
or `none` when the key is absent. -/
def dictGet (d : Entity) (k : String) : Option Val :=
  (d.find? (fun p => p.1 == k)).map (fun p => p.2)

/-- Python `d[k] = v`: replace the value under `k` in place if present,
otherwise append the new pair (dict insertion order semantics). -/
def dictSet (d : Entity) (k : String) (v : Val) : Entity :=
  if d.any (fun p => p.1 == k) then
    d.map (fun p => if p.1 == k then (k, v) else p)
  else
    d ++ [(k, v)]

/-- Python `d.update(kvs)`: set every pair of `kvs` in order. -/
def dictUpdate (d : Entity) (kvs : List (String × Val)) : Entity :=
  kvs.foldl (fun acc p => dictSet acc p.1 p.2) d

/-- The Python exception classes appearing in the modelled code:
`TaigaException` (backend API error), `ValueError`, `PermissionError`,
`RuntimeError`, `TypeError`. -/
inductive PyExc where
  | taiga (msg : String)
  | valueErr (msg : String)
  | permission (msg : String)
  | runtime (msg : String)
  | typeErr (msg : String)
deriving DecidableEq

/-- Python `str(e)` for the exceptions above: the carried message. -/
def PyExc.msg : PyExc → String
  | .taiga m => m
  | .valueErr m => m
  | .permission m => m
  | .runtime m => m
  | .typeErr m => m

/-- Whether an exception is the backend API error class `TaigaException`
(the class the `except TaigaException` handlers catch). -/
def PyExc.isTaiga : PyExc → Bool
  | .taiga _ => true
  | _ => false

/-- common.py `handle_general_exception`: wraps any non-Taiga exception in a
`RuntimeError` with operation and entity-type context (the log call is not
modelled). -/
def handle_general_exception (operation entityType : String) (e : PyExc) : PyExc :=
  .runtime ("Server error " ++ operation ++ " " ++ entityType ++ ": " ++ e.msg)

/-- The uniform tail of every tool body: `except TaigaException as e:
handle_taiga_exception(...)` re-raises `e` unchanged, while `except Exception
as e: handle_general_exception(...)` wraps it in a `RuntimeError`. -/
def handleToolExc (operation entityType : String) (e : PyExc) : PyExc :=
  match e with
  | .taiga m => .taiga m
  | e2 => handle_general_exception operation entityType e2

/-- One call issued against the backend REST client, recorded in the trace of
a tool invocation. -/
inductive ApiCall where
  | get (eid : Nat)
  | edit (eid : Nat) (version : Val) (changes : List (String × Val))
  | listMemberships (projectId : Nat)

/-- The per-entity-type resource client (`api.tasks`, `api.user_stories`, ...):
responses of the backend to `get(id)` and `edit(id, version, changes)`.
A `.error` response models the call raising that exception. -/
structure EntityApi where
  getResult : Nat → Except PyExc Entity
  editResult : Nat → Val → List (String × Val) → Except PyExc Entity

/-- The backend REST client held by an authenticated wrapper (`client.api`):
one resource client per entity type, plus `memberships.list` and `users.me`. -/
structure TaigaApi where
  projects : EntityApi
  user_stories : EntityApi
  tasks : EntityApi
  issues : EntityApi
  epics : EntityApi
  milestones : EntityApi
  membershipsList : Nat → Except PyExc (List Entity)
  usersMe : Except PyExc Entity

/-- src/taiga_client.py `TaigaClientWrapper` as the session code sees it:
the `is_authenticated` flag and the wrapped REST client. -/
structure TaigaClientWrapper where
  is_authenticated : Bool
  api : TaigaApi

/-- common.py `active_sessions`: the process-wide session map, modelled as an
association list from session id to client wrapper (dict keys unique). -/
abbrev SessionMap := List (String × TaigaClientWrapper)

/-- Python `active_sessions.get(session_id)`. -/
def smGet (m : SessionMap) (sid : String) : Option TaigaClientWrapper :=
  (m.find? (fun p => p.1 == sid)).map (fun p => p.2)

/-- Python `active_sessions[new_session_id] = wrapper`. -/
def smInsert (m : SessionMap) (sid : String) (c : TaigaClientWrapper) : SessionMap :=
  if m.any (fun p => p.1 == sid) then
    m.map (fun p => if p.1 == sid then (sid, c) else p)
  else
    m ++ [(sid, c)]

/-- Python `active_sessions.pop(session_id, None)`: the popped wrapper (if
any) and the map with that entry removed. -/
def smPop (m : SessionMap) (sid : String) : Option TaigaClientWrapper × SessionMap :=
  (smGet m sid, List.eraseP (fun p => p.1 == sid) m)

/-- The message of the `PermissionError` raised by common.py
`get_authenticated_client` (apostrophes of the source text omitted). -/
def invalidSessionMsg (sid : String) : String :=
  "Invalid or expired session ID: " ++ sid ++ ". Please login again."

/-- common.py `get_authenticated_client`: returns the stored wrapper only if
the session id is present and the wrapper is authenticated, otherwise raises
`PermissionError` (a wrapper object is always truthy, so `not client` is
exactly `client is None`). -/
def get_authenticated_client (m : SessionMap) (sid : String) :
    Except PyExc TaigaClientWrapper :=
  match smGet m sid with
  | some client =>
    if client.is_authenticated then .ok client
    else .error (.permission (invalidSessionMsg sid))
  | none => .error (.permission (invalidSessionMsg sid))

/-- The `ValueError` message raised when the pre-update fetch yields no
(truthy) version. -/
def noVersionMsg (entityName : String) (eid : Nat) : String :=
  "Could not determine version for " ++ entityName ++ " " ++ toString eid

/-- The exception that actually escapes an update tool when the version
precondition fails: the local `ValueError` is caught by the `except
Exception` clause of the same function and wrapped in a `RuntimeError`. -/
def versionUnavailableExc (entityName : String) (eid : Nat) : PyExc :=
  handleToolExc "updating" entityName (.valueErr (noVersionMsg entityName eid))

/-- The optimistic-update body shared verbatim (modulo entity naming) by
update_project, update_user_story, update_task, update_issue, update_epic and
update_milestone:

  if not changes: return api.get(id)
  current = api.get(id); version = current.get("version")
  if not version: raise ValueError("Could not determine version ...")
  return api.edit(id, version, changes)

wrapped in the uniform `except TaigaException` / `except Exception` handlers.
The second component of the result is the trace of backend calls issued. -/
def updateVersioned (entityName : String) (api : EntityApi) (eid : Nat)
    (changes : List (String × Val)) : Except PyExc Entity × List ApiCall :=
  if changes.isEmpty then
    match api.getResult eid with
    | .ok ent => (.ok ent, [ApiCall.get eid])
    | .error e => (.error (handleToolExc "updating" entityName e), [ApiCall.get eid])
  else
    match api.getResult eid with
    | .error e => (.error (handleToolExc "updating" entityName e), [ApiCall.get eid])
    | .ok current =>
      match dictGet current "version" with
      | some v =>
        if pyTruthy v then
          match api.editResult eid v changes with
          | .ok updated => (.ok updated, [ApiCall.get eid, ApiCall.edit eid v changes])
          | .error e => (.error (handleToolExc "updating" entityName e),
                         [ApiCall.get eid, ApiCall.edit eid v changes])
        else
          (.error (versionUnavailableExc entityName eid), [ApiCall.get eid])
      | none =>
        (.error (versionUnavailableExc entityName eid), [ApiCall.get eid])

/-- project.py `update_project`: session gate, then the shared optimistic
update with the caller's keyword arguments as the change set. -/
def update_project (m : SessionMap) (sid : String) (project_id : Nat)
    (kwargs : List (String × Val)) : Except PyExc Entity × List ApiCall :=
  match get_authenticated_client m sid with
  | .error e => (.error e, [])
  | .ok c => updateVersioned "project" c.api.projects project_id kwargs

/-- story.py `update_user_story`. -/
def update_user_story (m : SessionMap) (sid : String) (user_story_id : Nat)
    (kwargs : List (String × Val)) : Except PyExc Entity × List ApiCall :=
  match get_authenticated_client m sid with
  | .error e => (.error e, [])
  | .ok c => updateVersioned "user story" c.api.user_stories user_story_id kwargs

/-- issue.py `update_issue`. -/
def update_issue (m : SessionMap) (sid : String) (issue_id : Nat)
    (kwargs : List (String × Val)) : Except PyExc Entity × List ApiCall :=
  match get_authenticated_client m sid with
  | .error e => (.error e, [])
  | .ok c => updateVersioned "issue" c.api.issues issue_id kwargs

/-- epic.py `update_epic`. -/
def update_epic (m : SessionMap) (sid : String) (epic_id : Nat)
    (kwargs : List (String × Val)) : Except PyExc Entity × List ApiCall :=
  match get_authenticated_client m sid with
  | .error e => (.error e, [])
  | .ok c => updateVersioned "epic" c.api.epics epic_id kwargs

/-- milestone.py `update_milestone`. -/
def update_milestone (m : SessionMap) (sid : String) (milestone_id : Nat)
    (kwargs : List (String × Val)) : Except PyExc Entity × List ApiCall :=
  match get_authenticated_client m sid with
  | .error e => (.error e, [])
  | .ok c => updateVersioned "milestone" c.api.milestones milestone_id kwargs

/-- task.py update_task, tag splitting: `[tag.strip() for tag in
tags.split(",") if tag.strip()]`. -/
def splitTags (s : String) : Val :=
  .vlist ((((s.splitOn ",").map String.trim).filter (fun t => t != "")).map .vstr)

/-- task.py `update_task`, change-set construction: each named parameter is
added only when it is not None (so passing `assigned_to=None` adds nothing),
then the extra keyword arguments are merged in with `dict.update`. -/
def buildTaskUpdateData (subject description due_date tags : Option String)
    (assigned_to milestone_id status_id user_story_id : Option Int)
    (kwargs : List (String × Val)) : List (String × Val) :=
  let d : Entity := []
  let d := match subject with | some s => dictSet d "subject" (.vstr s) | none => d
  let d := match description with | some s => dictSet d "description" (.vstr s) | none => d
  let d := match due_date with | some s => dictSet d "due_date" (.vstr s) | none => d
  let d := match tags with | some s => dictSet d "tags" (splitTags s) | none => d
  let d := match assigned_to with | some n => dictSet d "assigned_to" (.vint n) | none => d
  let d := match milestone_id with | some n => dictSet d "milestone" (.vint n) | none => d
  let d := match status_id with | some n => dictSet d "status" (.vint n) | none => d
  let d := match user_story_id with | some n => dictSet d "user_story" (.vint n) | none => d
  dictUpdate d kwargs

/-- task.py `update_task`: session gate, change-set construction from the
named optional parameters (None meaning "not provided"), then the shared
optimistic update. -/
def update_task (m : SessionMap) (sid : String) (task_id : Nat)
    (subject description due_date tags : Option String)
    (assigned_to milestone_id status_id user_story_id : Option Int)
    (kwargs : List (String × Val)) : Except PyExc Entity × List ApiCall :=
  match get_authenticated_client m sid with
  | .error e => (.error e, [])
  | .ok c =>
    updateVersioned "task" c.api.tasks task_id
      (buildTaskUpdateData subject description due_date tags
        assigned_to milestone_id status_id user_story_id kwargs)

/-- task.py `assign_task_to_user`: delegates to update_task with
`assigned_to=user_id`. -/
def assign_task_to_user (m : SessionMap) (sid : String) (task_id : Nat)
    (user_id : Int) : Except PyExc Entity × List ApiCall :=
  update_task m sid task_id none none none none (some user_id) none none none []

/-- task.py `unassign_task_from_user`: delegates to update_task with
`assigned_to=None`. -/
def unassign_task_from_user (m : SessionMap) (sid : String) (task_id : Nat) :
    Except PyExc Entity × List ApiCall :=
  update_task m sid task_id none none none none none none none none []

/-- story.py `assign_user_story_to_user`: update_user_story with
`assigned_to=user_id` as the single keyword argument. -/
def assign_user_story_to_user (m : SessionMap) (sid : String)
    (user_story_id : Nat) (user_id : Int) : Except PyExc Entity × List ApiCall :=
  update_user_story m sid user_story_id [("assigned_to", .vint user_id)]

/-- story.py `unassign_user_story_from_user`: update_user_story with the
keyword argument dict `(assigned_to := None)`, which is a non-empty change
set containing a null value. -/
def unassign_user_story_from_user (m : SessionMap) (sid : String)
    (user_story_id : Nat) : Except PyExc Entity × List ApiCall :=
  update_user_story m sid user_story_id [("assigned_to", .vnull)]

/-- issue.py `unassign_issue_from_user`. -/
def unassign_issue_from_user (m : SessionMap) (sid : String) (issue_id : Nat) :
    Except PyExc Entity × List ApiCall :=
  update_issue m sid issue_id [("assigned_to", .vnull)]

/-- epic.py `unassign_epic_from_user`. -/
def unassign_epic_from_user (m : SessionMap) (sid : String) (epic_id : Nat) :
    Except PyExc Entity × List ApiCall :=
  update_epic m sid epic_id [("assigned_to", .vnull)]

/-- Modelled from the spec: the outcome of the client-handle login exchange
(`TaigaClientWrapper(host).login(username, password)` lives in
src/taiga_client.py, which is not included under src/).  Per the spec the
exchange either succeeds, leaving the wrapper authenticated, or fails with an
error (`AuthenticationFailed`: credentials rejected or host unreachable,
raised as `ValueError` or `TaigaException`); auth.py additionally guards
against `login` returning False without raising. -/
inductive LoginExchange where
  | success (api : TaigaApi)
  | returnedFalse
  | failure (e : PyExc)

/-- auth.py `login`: on a successful exchange the authenticated wrapper is
stored under a freshly generated session id (`str(uuid.uuid4())`, modelled as
the parameter `freshId`) and the id is returned; `ValueError` and
`TaigaException` from the exchange are re-raised unchanged; any other
exception — including the defensive `RuntimeError` for a False return, which
is raised inside the same `try` — is wrapped in a `RuntimeError`.  The first
component is the session map after the call. -/
def login (m : SessionMap) (freshId : String) (exchange : LoginExchange) :
    SessionMap × Except PyExc String :=
  match exchange with
  | .success api => (smInsert m freshId ⟨true, api⟩, .ok freshId)
  | .returnedFalse =>
    (m, .error (.runtime
      "An unexpected server error occurred during login: Login failed for an unknown reason."))
  | .failure e =>
    match e with
    | .valueErr msg => (m, .error (.valueErr msg))
    | .taiga msg => (m, .error (.taiga msg))
    | e2 => (m, .error (.runtime
        ("An unexpected server error occurred during login: " ++ e2.msg)))

/-- Result dictionary of auth.py `logout`: a status string plus the echoed
session id. -/
structure LogoutResult where
  status : String
  session_id : String
deriving DecidableEq

/-- auth.py `logout`: pops the session entry; status "logged_out" when an
entry was removed, "session_not_found" otherwise.  Never raises. -/
def logout (m : SessionMap) (sid : String) : SessionMap × LogoutResult :=
  match smPop m sid with
  | (some _, m2) => (m2, ⟨"logged_out", sid⟩)
  | (none, m2) => (m2, ⟨"session_not_found", sid⟩)

/-- Result dictionary of auth.py `session_status`: status, optional reason,
optional username value (any backend value, default the string "Unknown"),
and the echoed session id. -/
structure StatusResult where
  status : String
  reason : Option String
  username : Option Val
  session_id : String

/-- auth.py `session_status`: if the session is present and authenticated it
issues `users.me()`; a `TaigaException` there evicts the session and reports
inactive/token_invalid, any other exception reports error/check_failed
without eviction, success reports active with the resolved username.  The
first component is the session map after the call. -/
def session_status (m : SessionMap) (sid : String) : SessionMap × StatusResult :=
  match smGet m sid with
  | some w =>
    if w.is_authenticated then
      match w.api.usersMe with
      | .ok me =>
        (m, ⟨"active", none, some ((dictGet me "username").getD (.vstr "Unknown")), sid⟩)
      | .error (.taiga _) =>
        ((smPop m sid).2, ⟨"inactive", some "token_invalid", none, sid⟩)
      | .error _ =>
        (m, ⟨"error", some "check_failed", none, sid⟩)
    else
      (m, ⟨"inactive", some "not_authenticated", none, sid⟩)
  | none => (m, ⟨"inactive", some "not_found", none, sid⟩)

/-- Python `needle in hay` on lists of characters. -/
def charsContain (needle : List Char) : List Char → Bool
  | [] => needle.isEmpty
  | c :: t => needle.isPrefixOf (c :: t) || charsContain needle t

/-- Python `needle in hay` on strings (substring test). -/
def strContains (hay needle : String) : Bool :=
  charsContain needle.toList hay.toList

/-- Python `s.lower()` (character-wise lowering; the queried name fields are
ASCII). -/
def strLower (s : String) : String :=
  String.mk (s.toList.map Char.toLower)

/-- Python `member.get("user", {})`, with the dict payload extracted (the
backend returns a dict there; a non-dict value is treated as the default). -/
def pyGetDict (d : Entity) (k : String) : Entity :=
  match dictGet d k with
  | some (.vdict u) => u
  | _ => []

/-- Python `user.get(k, "")` followed by `.lower()` usage: the string stored
under `k`, defaulting to the empty string (the backend returns strings for
these fields; a non-string value is treated as the default). -/
def pyGetStrD (d : Entity) (k : String) : String :=
  match dictGet d k with
  | some (.vstr s) => s
  | _ => ""

/-- task.py `search_users`, member filter: the lowercased query occurs in the
lowercased full name, username or email of the member's user. -/
def matchesQuery (queryLower : String) (user : Entity) : Bool :=
  strContains (strLower (pyGetStrD user "full_name")) queryLower ||
  strContains (strLower (pyGetStrD user "username")) queryLower ||
  strContains (strLower (pyGetStrD user "email")) queryLower

/-- task.py `search_users`, result row built for a matching member: selected
user fields (missing ones become None, `is_active` defaults to False) plus
the membership's role name. -/
def matchEntry (member user : Entity) : Entity :=
  [("id", (dictGet user "id").getD .vnull),
   ("username", (dictGet user "username").getD .vnull),
   ("full_name", (dictGet user "full_name").getD .vnull),
   ("email", (dictGet user "email").getD .vnull),
   ("role", (dictGet member "role_name").getD .vnull),
   ("is_active", (dictGet user "is_active").getD (.vbool false))]

/-- task.py `search_users`: session gate, one `memberships.list` call for the
project, then a pure filter of the members against the query. -/
def search_users (m : SessionMap) (sid : String) (project_id : Nat)
    (query : String) : Except PyExc (List Entity) × List ApiCall :=
  match get_authenticated_client m sid with
  | .error e => (.error e, [])
  | .ok c =>
    match c.api.membershipsList project_id with
    | .ok members =>
      (.ok (members.filterMap (fun mem =>
        let user := pyGetDict mem "user"
        if matchesQuery (strLower query) user then some (matchEntry mem user) else none)),
       [ApiCall.listMemberships project_id])
    | .error e =>
      (.error (handleToolExc "searching" "users" e), [ApiCall.listMemberships project_id])

/-- The `ValueError` message raised by assign_task_by_username when no user
matches (apostrophes of the source text omitted). -/
def noUserFoundMsg (username : String) (project_id : Nat) : String :=
  "No user found matching " ++ username ++ " in project " ++ toString project_id

/-- The structured result returned by assign_task_by_username when several
users match: status "multiple_matches" plus the matching user rows. -/
def multipleMatchesDict (username : String) (users : List Entity) : Entity :=
  [("status", .vstr "multiple_matches"),
   ("message", .vstr ("Multiple users found matching " ++ username ++ ". Please specify:")),
   ("users", .vlist (users.map .vdict)),
   ("suggestion", .vstr "Use assign_task_to_user with specific user ID")]

/-- The `TypeError` produced by the final handler of assign_task_by_username:
the source calls `handle_general_exception` with only three of its four
required arguments, so the handler call itself raises `TypeError`. -/
def assignHandlerTypeError : PyExc :=
  .typeErr "handle_general_exception() missing 1 required positional argument"

/-- Python `user["id"]` as the `assigned_to: int = None` argument of
update_task: an int id is passed through, a missing or null id behaves as
None (the backend returns int ids for these fields). -/
def valToOptInt (v : Option Val) : Option Int :=
  match v with
  | some (.vint n) => some n
  | _ => none

/-- task.py `assign_task_by_username`: search the project members for the
query; with no match raise `ValueError` (re-raised by the `except ValueError`
clause); with several matches return the structured multiple-matches dict
without touching the task; with exactly one match delegate to update_task
with that user's id and attach the user row to the result.  Any non-ValueError
exception reaches the arity-broken `handle_general_exception` call and so
surfaces as a `TypeError`. -/
def assign_task_by_username (m : SessionMap) (sid : String)
    (task_id project_id : Nat) (username : String) :
    Except PyExc Entity × List ApiCall :=
  match search_users m sid project_id username with
  | (.error e, tr) =>
    match e with
    | .valueErr msg => (.error (.valueErr msg), tr)
    | _ => (.error assignHandlerTypeError, tr)
  | (.ok users, tr) =>
    if users.isEmpty then
      (.error (.valueErr (noUserFoundMsg username project_id)), tr)
    else if users.length > 1 then
      (.ok (multipleMatchesDict username users), tr)
    else
      match users with
      | user :: _ =>
        match update_task m sid task_id none none none none
            (valToOptInt (dictGet user "id")) none none none [] with
        | (.ok task, tr2) =>
          (.ok (dictSet task "assigned_user" (.vdict user)), tr ++ tr2)
        | (.error (.valueErr msg), tr2) => (.error (.valueErr msg), tr ++ tr2)
        | (.error _, tr2) => (.error assignHandlerTypeError, tr ++ tr2)
      | [] => (.error (.valueErr (noUserFoundMsg username project_id)), tr)

/-- Truthiness of the value returned by `current.get("version")`: `not
version` in the source is true when the key is absent or the stored value is
falsy (None, 0, empty string). -/
def versionTruthy : Option Val → Bool
  | none => false
  | some v => pyTruthy v

/-- Concrete test entity: id 42, version 7, a subject. -/
def demoEntity : Entity :=
  [("id", .vint 42), ("version", .vint 7), ("subject", .vstr "Old title")]

/-- Concrete resource client serving `demoEntity` and applying edits to it. -/
def demoApi : EntityApi :=
  ⟨fun _ => .ok demoEntity, fun _ _ changes => .ok (dictUpdate demoEntity changes)⟩

/-- Concrete project member whose user matches the query "bob". -/
def demoMemberBob1 : Entity :=
  [("user", .vdict [("id", .vint 1), ("username", .vstr "bob"),
     ("full_name", .vstr "Bob One"), ("email", .vstr "bob1@example.com"),
     ("is_active", .vbool true)]),
   ("role_name", .vstr "Developer")]

/-- A second concrete project member whose user also matches "bob". -/
def demoMemberBob2 : Entity :=
  [("user", .vdict [("id", .vint 2), ("username", .vstr "bobby"),
     ("full_name", .vstr "Bob Two"), ("email", .vstr "bob2@example.com"),
     ("is_active", .vbool true)]),
   ("role_name", .vstr "Designer")]

/-- Concrete backend client: every resource serves `demoEntity`, the project
membership list holds the two Bobs, and `users.me` resolves to alice. -/
def demoTaigaApi : TaigaApi :=
  ⟨demoApi, demoApi, demoApi, demoApi, demoApi, demoApi,
   fun _ => .ok [demoMemberBob1, demoMemberBob2],
   .ok [("username", .vstr "alice")]⟩

/-- Concrete authenticated wrapper over `demoTaigaApi`. -/
def demoClient : TaigaClientWrapper := ⟨true, demoTaigaApi⟩

/-- Concrete session map with the single valid session "sess". -/
def demoMap : SessionMap := [("sess", demoClient)]

/-- Resource client whose `get` succeeds but returns an entity without a
`version` key; its `edit` fails with a backend API error. -/
def noVersionApi : EntityApi :=
  ⟨fun _ => .ok [("id", .vint 42)], fun _ _ _ => .error (.taiga "400 Bad Request")⟩

/-- Authenticated wrapper over `noVersionApi` on every resource. -/
def noVersionClient : TaigaClientWrapper :=
  ⟨true, ⟨noVersionApi, noVersionApi, noVersionApi, noVersionApi,
     noVersionApi, noVersionApi, fun _ => .ok [], .ok []⟩⟩

/-- Session map holding `noVersionClient` under "sess". -/
def noVersionMap : SessionMap := [("sess", noVersionClient)]

/-- Resource client whose `get` fails with a backend API error (entity does
not exist). -/
def getFailApi : EntityApi :=
  ⟨fun _ => .error (.taiga "404 Not Found"), fun _ _ _ => .error (.taiga "404 Not Found")⟩

/-- Session map whose client wraps `getFailApi` on every resource. -/
def getFailMap : SessionMap :=
  [("sess", ⟨true, ⟨getFailApi, getFailApi, getFailApi, getFailApi,
     getFailApi, getFailApi, fun _ => .ok [], .ok []⟩⟩)]

/-- Resource client whose `get` succeeds with an entity carrying the version
field with value 0 (a falsy but present version). -/
def zeroVersionApi : EntityApi :=
  ⟨fun _ => .ok [("version", .vint 0)], fun _ _ _ => .error (.taiga "400 Bad Request")⟩

/-- Session map whose client wraps `zeroVersionApi` on every resource. -/
def zeroVersionMap : SessionMap :=
  [("sess", ⟨true, ⟨zeroVersionApi, zeroVersionApi, zeroVersionApi, zeroVersionApi,
     zeroVersionApi, zeroVersionApi, fun _ => .ok [], .ok []⟩⟩)]

/-- Authenticated wrapper whose `users.me` fails with a backend API error
(invalid token). -/
def authFailClient : TaigaClientWrapper :=
  ⟨true, ⟨demoApi, demoApi, demoApi, demoApi, demoApi, demoApi,
     fun _ => .ok [], .error (.taiga "401 Unauthorized")⟩⟩

/-- Session map holding `authFailClient` under "sess". -/
def authFailMap : SessionMap := [("sess", authFailClient)]

/-- Authenticated wrapper whose `users.me` fails with a non-Taiga
(transient) error. -/
def netFailClient : TaigaClientWrapper :=
  ⟨true, ⟨demoApi, demoApi, demoApi, demoApi, demoApi, demoApi,
     fun _ => .ok [], .error (.runtime "connection timed out")⟩⟩

/-- Session map holding `netFailClient` under "sess". -/
def netFailMap : SessionMap := [("sess", netFailClient)]

/-- The first search_users result row for the query "bob" against the demo
membership list. -/
def demoMatch1 : Entity := matchEntry demoMemberBob1 (pyGetDict demoMemberBob1 "user")

/-- The second search_users result row for the query "bob" against the demo
membership list. -/
def demoMatch2 : Entity := matchEntry demoMemberBob2 (pyGetDict demoMemberBob2 "user")

/-- With an empty change set the protocol issues exactly the single get, and
returns the fetched entity when the get succeeds. -/
theorem updateVersioned_nil (entityName : String) (api : EntityApi) (eid : Nat) :
    (updateVersioned entityName api eid []).2 = [ApiCall.get eid]
    ∧ ∀ ent, api.getResult eid = Except.ok ent →
        (updateVersioned entityName api eid []).1 = Except.ok ent := by
  constructor
  · cases h : api.getResult eid <;> simp [updateVersioned, h]
  · intro ent h
    simp [updateVersioned, h]

/-- With a non-empty change set and a successful get carrying a truthy
version, the protocol issues exactly one get followed by one edit tagged
with that version. -/
theorem updateVersioned_write_trace (entityName : String) (api : EntityApi)
    (eid : Nat) (changes : List (String × Val)) (ent : Entity) (v : Val)
    (hne : changes ≠ []) (hget : api.getResult eid = Except.ok ent)
    (hv : dictGet ent "version" = some v) (htr : pyTruthy v = true) :
    (updateVersioned entityName api eid changes).2
      = [ApiCall.get eid, ApiCall.edit eid v changes] := by
  cases changes with
  | nil => exact absurd rfl hne
  | cons a as =>
    cases he : api.editResult eid v (a :: as) <;>
      simp [updateVersioned, hget, hv, htr, he]

/-- An exception of the backend API class stays that class through the
uniform tool handlers. -/
theorem handleToolExc_taiga (operation entityType : String) (e : PyExc)
    (h : e.isTaiga = true) :
    ∃ msg, handleToolExc operation entityType e = PyExc.taiga msg := by
  cases e <;> simp_all [PyExc.isTaiga, handleToolExc]

/-- Provided backend get/edit failures are of the backend API exception
class (as pytaigaclient raises), a non-empty update fails with the
version-unavailable error exactly when the get succeeds but yields no truthy
version; in that case only the get was issued. -/
theorem updateVersioned_version_unavailable (entityName : String)
    (api : EntityApi) (eid : Nat) (changes : List (String × Val))
    (hne : changes ≠ [])
    (hgc : ∀ e, api.getResult eid = Except.error e → e.isTaiga = true)
    (hec : ∀ v cs e, api.editResult eid v cs = Except.error e → e.isTaiga = true) :
    ((updateVersioned entityName api eid changes).1
        = Except.error (versionUnavailableExc entityName eid)
      ↔ ∃ ent, api.getResult eid = Except.ok ent
          ∧ versionTruthy (dictGet ent "version") = false)
    ∧ ((updateVersioned entityName api eid changes).1
          = Except.error (versionUnavailableExc entityName eid) →
        (updateVersioned entityName api eid changes).2 = [ApiCall.get eid]) := by
  obtain ⟨a, as, rfl⟩ : ∃ b bs, changes = b :: bs := by
    cases changes with
    | nil => exact absurd rfl hne
    | cons b bs => exact ⟨b, bs, rfl⟩
  cases hget : api.getResult eid with
  | error e =>
    obtain ⟨msg, hmsg⟩ := handleToolExc_taiga "updating" entityName e (hgc e hget)
    constructor
    · constructor
      · intro habs
        have h1 : (updateVersioned entityName api eid (a :: as)).1
            = Except.error (handleToolExc "updating" entityName e) := by
          simp [updateVersioned, hget]
        rw [h1, hmsg] at habs
        simp [versionUnavailableExc, handleToolExc, handle_general_exception] at habs
      · rintro ⟨ent, hent, -⟩
        exact absurd hent (by simp)
    · intro _
      simp [updateVersioned, hget]
  | ok ent =>
    cases hv : dictGet ent "version" with
    | none =>
      constructor
      · constructor
        · intro _
          exact ⟨ent, rfl, by simp [versionTruthy, hv]⟩
        · intro _
          simp [updateVersioned, hget, hv]
      · intro _
        simp [updateVersioned, hget, hv]
    | some v =>
      cases htr : pyTruthy v with
      | false =>
        constructor
        · constructor
          · intro _
            exact ⟨ent, rfl, by simp [versionTruthy, hv, htr]⟩
          · intro _
            simp [updateVersioned, hget, hv, htr]
        · intro _
          simp [updateVersioned, hget, hv, htr]
      | true =>
        have hres : (updateVersioned entityName api eid (a :: as)).1
            ≠ Except.error (versionUnavailableExc entityName eid) := by
          cases he : api.editResult eid v (a :: as) with
          | ok u => simp [updateVersioned, hget, hv, htr, he]
          | error e =>
            obtain ⟨msg, hmsg⟩ := handleToolExc_taiga "updating" entityName e
              (hec v (a :: as) e he)
            have h1 : (updateVersioned entityName api eid (a :: as)).1
                = Except.error (handleToolExc "updating" entityName e) := by
              simp [updateVersioned, hget, hv, htr, he]
            rw [h1, hmsg]
            simp [versionUnavailableExc, handleToolExc, handle_general_exception]
        constructor
        · constructor
          · intro habs
            exact absurd habs hres
          · rintro ⟨ent2, hent2, hfal⟩
            have hee : ent = ent2 := by injection hent2
            rw [← hee, hv] at hfal
            simp [versionTruthy, htr] at hfal
        · intro habs
          exact absurd habs hres

/-- A session id bound to no entry of the map does not resolve. -/
theorem smGet_not_mem (m : SessionMap) (sid : String)
    (h : ∀ p ∈ m, p.1 ≠ sid) : smGet m sid = none := by
  have hf : m.find? (fun p => p.1 == sid) = none := by
    rw [List.find?_eq_none]
    intro p hp
    simpa using h p hp
  simp [smGet, hf]

/-- Conversely, an unresolvable session id matches no entry of the map. -/
theorem not_mem_of_smGet_none (m : SessionMap) (sid : String)
    (h : smGet m sid = none) : ∀ p ∈ m, p.1 ≠ sid := by
  intro p hp
  have hf : m.find? (fun p => p.1 == sid) = none := by
    cases hfind : m.find? (fun p => p.1 == sid) with
    | none => rfl
    | some q => simp [smGet, hfind] at h
  have := List.find?_eq_none.mp hf p hp
  simpa using this

/-- Popping a session id from a map with unique keys makes it unresolvable. -/
theorem smGet_after_erase (m : SessionMap) (sid : String)
    (hnd : (m.map Prod.fst).Nodup) :
    smGet (List.eraseP (fun p => p.1 == sid) m) sid = none := by
  induction m with
  | nil => rfl
  | cons q t ih =>
    simp only [List.map_cons, List.nodup_cons] at hnd
    by_cases hq : q.1 = sid
    · rw [List.eraseP_cons_of_pos (by simpa using hq)]
      apply smGet_not_mem
      intro p hp hps
      exact hnd.1 (by rw [← hq] at hps; rw [← hps]; exact List.mem_map_of_mem Prod.fst hp)
    · rw [List.eraseP_cons_of_neg (by simpa using hq)]
      have hfind : ((q :: List.eraseP (fun p => p.1 == sid) t).find?
          (fun p => p.1 == sid)) = (List.eraseP (fun p => p.1 == sid) t).find?
          (fun p => p.1 == sid) :=
        List.find?_cons_of_neg _ (by simpa using hq)
      simpa [smGet, hfind] using ih hnd.2

/-- Popping an absent session id leaves the map unchanged. -/
theorem erase_absent (m : SessionMap) (sid : String) (h : smGet m sid = none) :
    List.eraseP (fun p => p.1 == sid) m = m := by
  apply List.eraseP_of_forall_not
  intro p hp
  simpa using not_mem_of_smGet_none m sid h p hp

/-- Inserting under a fresh session id appends the new entry. -/
theorem smInsert_fresh (m : SessionMap) (sid : String) (c : TaigaClientWrapper)
    (h : smGet m sid = none) : smInsert m sid c = m ++ [(sid, c)] := by
  have ha : m.any (fun p => p.1 == sid) = false := by
    rw [List.any_eq_false]
    intro p hp
    simpa using not_mem_of_smGet_none m sid h p hp
  simp [smInsert, ha]

/-- Looking up past a prefix that does not bind the id. -/
theorem smGet_append_of_none (m l : SessionMap) (sid : String)
    (h : smGet m sid = none) : smGet (m ++ l) sid = smGet l sid := by
  induction m with
  | nil => rfl
  | cons q t ih =>
    have hq : (q.1 == sid) = false := by
      simpa using not_mem_of_smGet_none (q :: t) sid h q (List.mem_cons_self q t)
    have ht : smGet t sid = none := by
      apply smGet_not_mem
      intro p hp
      exact not_mem_of_smGet_none (q :: t) sid h p (List.mem_cons_of_mem q hp)
    have h1 : ((q :: (t ++ l)).find? (fun p => p.1 == sid))
        = (t ++ l).find? (fun p => p.1 == sid) :=
      List.find?_cons_of_neg _ (by simp [hq])
    simpa [smGet, h1] using ih ht

/-- Looking up the id bound by the head entry. -/
theorem smGet_cons_self (t : SessionMap) (sid : String) (c : TaigaClientWrapper) :
    smGet ((sid, c) :: t) sid = some c := by
  simp [smGet, List.find?_cons_of_pos]

/-- Looking up a session id different from the one bound by the head entry. -/
theorem smGet_cons_ne (t : SessionMap) (k sid : String) (c : TaigaClientWrapper)
    (h : k ≠ sid) : smGet ((k, c) :: t) sid = smGet t sid := by
  have hq : ((k, c).1 == sid) = false := by simpa using h
  simp only [smGet, List.find?_cons, hq]

/-- The map left behind by a logout call is the original map with the
session entry popped. -/
theorem logout_fst (m : SessionMap) (sid : String) :
    (logout m sid).1 = List.eraseP (fun p => p.1 == sid) m := by
  cases h : smGet m sid <;> simp [logout, smPop, h]

/-- C4: get_authenticated_client returns the stored client handle if and
only if the session id is present in the session map and the handle's
is_authenticated flag is true; otherwise it fails with the permission-style
InvalidSession error — covering never existed, already logged out (the last
conjunct), and flag false. -/
theorem claim_C4_lookup_gate :
    (∀ (m : SessionMap) (sid : String) (w : TaigaClientWrapper),
        smGet m sid = some w → w.is_authenticated = true →
        get_authenticated_client m sid = Except.ok w)
    ∧ (∀ (m : SessionMap) (sid : String) (w : TaigaClientWrapper),
        get_authenticated_client m sid = Except.ok w →
        smGet m sid = some w ∧ w.is_authenticated = true)
    ∧ (∀ (m : SessionMap) (sid : String), smGet m sid = none →
        get_authenticated_client m sid
          = Except.error (PyExc.permission (invalidSessionMsg sid)))
    ∧ (∀ (m : SessionMap) (sid : String) (w : TaigaClientWrapper),
        smGet m sid = some w → w.is_authenticated = false →
        get_authenticated_client m sid
          = Except.error (PyExc.permission (invalidSessionMsg sid)))
    ∧ (∀ (m : SessionMap) (sid : String), (m.map Prod.fst).Nodup →
        get_authenticated_client (logout m sid).1 sid
          = Except.error (PyExc.permission (invalidSessionMsg sid))) := by
  refine ⟨?_, ?_, ?_, ?_, ?_⟩
  · intro m sid w hw hauth
    simp [get_authenticated_client, hw, hauth]
  · intro m sid w h
    cases hw : smGet m sid with
    | none => simp [get_authenticated_client, hw] at h
    | some c =>
      cases hauth : c.is_authenticated with
      | false => simp [get_authenticated_client, hw, hauth] at h
      | true =>
        have hcw : c = w := by
          simpa [get_authenticated_client, hw, hauth] using h
        constructor
        · exact congrArg some hcw
        · rw [← hcw]
          exact hauth
  · intro m sid hw
    simp [get_authenticated_client, hw]
  · intro m sid w hw hauth
    simp [get_authenticated_client, hw, hauth]
  · intro m sid hnd
    rw [logout_fst]
    have h2 : smGet (List.eraseP (fun p => p.1 == sid) m) sid = none :=
      smGet_after_erase m sid hnd
    simp [get_authenticated_client, h2]

/-- C4 witness: in the demo map the valid session resolves to its handle and
an unknown session id fails with the InvalidSession permission error. -/
theorem claim_C4_witness :
    get_authenticated_client demoMap "sess" = Except.ok demoClient
    ∧ get_authenticated_client demoMap "nope"
        = Except.error (PyExc.permission (invalidSessionMsg "nope")) :=
  ⟨claim_C4_lookup_gate.1 demoMap "sess" demoClient rfl rfl,
   claim_C4_lookup_gate.2.2.1 demoMap "nope" rfl⟩

/-- C6: when the client handle login exchange fails, auth.py login leaves
the session map unchanged and raises instead of returning a session id;
ValueError and TaigaException (the AuthenticationFailed causes) are
propagated verbatim. -/
theorem claim_C6_login_failure_no_store :
    ∀ (m : SessionMap) (freshId : String) (e : PyExc),
      (login m freshId (LoginExchange.failure e)).1 = m
      ∧ (∃ e2, (login m freshId (LoginExchange.failure e)).2 = Except.error e2)
      ∧ (∀ msg, e = PyExc.valueErr msg ∨ e = PyExc.taiga msg →
          (login m freshId (LoginExchange.failure e)).2 = Except.error e) := by
  intro m freshId e
  refine ⟨by cases e <;> simp [login], by cases e <;> simp [login], ?_⟩
  intro msg h
  rcases h with h | h <;> rw [h] <;> simp [login]

/-- C6 witness: a rejected-credentials login against the demo registry
propagates the backend error and adds no entry. -/
theorem claim_C6_witness :
    (login demoMap "fresh-id" (LoginExchange.failure (PyExc.taiga "Invalid credentials"))).1
        = demoMap
    ∧ (login demoMap "fresh-id" (LoginExchange.failure (PyExc.taiga "Invalid credentials"))).2
        = Except.error (PyExc.taiga "Invalid credentials") :=
  ⟨(claim_C6_login_failure_no_store demoMap "fresh-id" (PyExc.taiga "Invalid credentials")).1,
   (claim_C6_login_failure_no_store demoMap "fresh-id" (PyExc.taiga "Invalid credentials")).2.2
     "Invalid credentials" (Or.inr rfl)⟩

/-- C8: logout removes the entry for the session id if present and reports
whether anything was removed ("logged_out" versus "session_not_found");
logging out twice yields removed then not-removed, and logging out an id
that never existed reports not-removed with the map unchanged; no call
raises (logout is a total function of the model). -/
theorem claim_C8_logout_idempotent :
    ∀ (m : SessionMap) (sid : String), (m.map Prod.fst).Nodup →
      (∀ w, smGet m sid = some w →
        (logout m sid).2 = ⟨"logged_out", sid⟩
        ∧ smGet (logout m sid).1 sid = none
        ∧ (logout (logout m sid).1 sid).2 = ⟨"session_not_found", sid⟩)
      ∧ (smGet m sid = none →
        logout m sid = (m, ⟨"session_not_found", sid⟩)) := by
  intro m sid hnd
  have hnf : ∀ M : SessionMap, smGet M sid = none →
      logout M sid = (M, ⟨"session_not_found", sid⟩) := by
    intro M hM
    simp [logout, smPop, hM, erase_absent M sid hM]
  constructor
  · intro w hw
    have h2 : smGet (logout m sid).1 sid = none := by
      rw [logout_fst]
      exact smGet_after_erase m sid hnd
    refine ⟨by simp [logout, smPop, hw], h2, by rw [hnf _ h2]⟩
  · exact hnf m

/-- C8 witness: logging out the demo session twice reports logged_out then
session_not_found, and logging out an unknown id leaves the map unchanged. -/
theorem claim_C8_witness :
    (logout demoMap "sess").2 = ⟨"logged_out", "sess"⟩
    ∧ (logout (logout demoMap "sess").1 "sess").2 = ⟨"session_not_found", "sess"⟩
    ∧ logout demoMap "nope" = (demoMap, ⟨"session_not_found", "nope"⟩) :=
  ⟨((claim_C8_logout_idempotent demoMap "sess" (by simp [demoMap])).1 demoClient rfl).1,
   ((claim_C8_logout_idempotent demoMap "sess" (by simp [demoMap])).1 demoClient rfl).2.2,
   (claim_C8_logout_idempotent demoMap "nope" (by simp [demoMap])).2 rfl⟩

/-- C1: every update operation (update_project, update_user_story,
update_task, update_issue, update_epic, update_milestone) called under a
valid session with a non-empty change set, whose pre-write fetch succeeds
with a (truthy) version, issues exactly one get for the entity id followed
by exactly one edit, and the version passed to that edit equals the version
field returned by that get. -/
theorem claim_C1_versioned_write :
    (∀ (m : SessionMap) (sid : String) (c : TaigaClientWrapper) (eid : Nat)
        (changes : List (String × Val)) (ent : Entity) (v : Val),
      get_authenticated_client m sid = Except.ok c → changes ≠ [] →
      c.api.projects.getResult eid = Except.ok ent →
      dictGet ent "version" = some v → pyTruthy v = true →
      (update_project m sid eid changes).2
        = [ApiCall.get eid, ApiCall.edit eid v changes])
    ∧ (∀ (m : SessionMap) (sid : String) (c : TaigaClientWrapper) (eid : Nat)
        (changes : List (String × Val)) (ent : Entity) (v : Val),
      get_authenticated_client m sid = Except.ok c → changes ≠ [] →
      c.api.user_stories.getResult eid = Except.ok ent →
      dictGet ent "version" = some v → pyTruthy v = true →
      (update_user_story m sid eid changes).2
        = [ApiCall.get eid, ApiCall.edit eid v changes])
    ∧ (∀ (m : SessionMap) (sid : String) (c : TaigaClientWrapper) (eid : Nat)
        (changes : List (String × Val)) (ent : Entity) (v : Val),
      get_authenticated_client m sid = Except.ok c → changes ≠ [] →
      c.api.issues.getResult eid = Except.ok ent →
      dictGet ent "version" = some v → pyTruthy v = true →
      (update_issue m sid eid changes).2
        = [ApiCall.get eid, ApiCall.edit eid v changes])
    ∧ (∀ (m : SessionMap) (sid : String) (c : TaigaClientWrapper) (eid : Nat)
        (changes : List (String × Val)) (ent : Entity) (v : Val),
      get_authenticated_client m sid = Except.ok c → changes ≠ [] →
      c.api.epics.getResult eid = Except.ok ent →
      dictGet ent "version" = some v → pyTruthy v = true →
      (update_epic m sid eid changes).2
        = [ApiCall.get eid, ApiCall.edit eid v changes])
    ∧ (∀ (m : SessionMap) (sid : String) (c : TaigaClientWrapper) (eid : Nat)
        (changes : List (String × Val)) (ent : Entity) (v : Val),
      get_authenticated_client m sid = Except.ok c → changes ≠ [] →
      c.api.milestones.getResult eid = Except.ok ent →
      dictGet ent "version" = some v → pyTruthy v = true →
      (update_milestone m sid eid changes).2
        = [ApiCall.get eid, ApiCall.edit eid v changes])
    ∧ (∀ (m : SessionMap) (sid : String) (c : TaigaClientWrapper) (eid : Nat)
        (subject description due_date tags : Option String)
        (assigned_to milestone_id status_id user_story_id : Option Int)
        (kwargs : List (String × Val)) (ent : Entity) (v : Val),
      get_authenticated_client m sid = Except.ok c →
      buildTaskUpdateData subject description due_date tags
        assigned_to milestone_id status_id user_story_id kwargs ≠ [] →
      c.api.tasks.getResult eid = Except.ok ent →
      dictGet ent "version" = some v → pyTruthy v = true →
      (update_task m sid eid subject description due_date tags
          assigned_to milestone_id status_id user_story_id kwargs).2
        = [ApiCall.get eid, ApiCall.edit eid v
            (buildTaskUpdateData subject description due_date tags
              assigned_to milestone_id status_id user_story_id kwargs)]) := by
  refine ⟨?_, ?_, ?_, ?_, ?_, ?_⟩
  · intro m sid c eid changes ent v hc hne hget hv htr
    have h1 : update_project m sid eid changes
        = updateVersioned "project" c.api.projects eid changes := by
      simp [update_project, hc]
    rw [h1]
    exact updateVersioned_write_trace _ _ _ _ _ _ hne hget hv htr
  · intro m sid c eid changes ent v hc hne hget hv htr
    have h1 : update_user_story m sid eid changes
        = updateVersioned "user story" c.api.user_stories eid changes := by
      simp [update_user_story, hc]
    rw [h1]
    exact updateVersioned_write_trace _ _ _ _ _ _ hne hget hv htr
  · intro m sid c eid changes ent v hc hne hget hv htr
    have h1 : update_issue m sid eid changes
        = updateVersioned "issue" c.api.issues eid changes := by
      simp [update_issue, hc]
    rw [h1]
    exact updateVersioned_write_trace _ _ _ _ _ _ hne hget hv htr
  · intro m sid c eid changes ent v hc hne hget hv htr
    have h1 : update_epic m sid eid changes
        = updateVersioned "epic" c.api.epics eid changes := by
      simp [update_epic, hc]
    rw [h1]
    exact updateVersioned_write_trace _ _ _ _ _ _ hne hget hv htr
  · intro m sid c eid changes ent v hc hne hget hv htr
    have h1 : update_milestone m sid eid changes
        = updateVersioned "milestone" c.api.milestones eid changes := by
      simp [update_milestone, hc]
    rw [h1]
    exact updateVersioned_write_trace _ _ _ _ _ _ hne hget hv htr
  · intro m sid c eid subject description due_date tags assigned_to milestone_id
      status_id user_story_id kwargs ent v hc hne hget hv htr
    have h1 : update_task m sid eid subject description due_date tags
          assigned_to milestone_id status_id user_story_id kwargs
        = updateVersioned "task" c.api.tasks eid
            (buildTaskUpdateData subject description due_date tags
              assigned_to milestone_id status_id user_story_id kwargs) := by
      simp [update_task, hc]
    rw [h1]
    exact updateVersioned_write_trace _ _ _ _ _ _ hne hget hv htr

/-- C1 witness: the spec scenario — updating user story 42 with subject "New
title" where get(42) returns version 7 issues get(42) then
edit(42, 7, the change set) exactly once. -/
theorem claim_C1_witness :
    (update_user_story demoMap "sess" 42 [("subject", Val.vstr "New title")]).2
      = [ApiCall.get 42, ApiCall.edit 42 (Val.vint 7) [("subject", Val.vstr "New title")]] :=
  claim_C1_versioned_write.2.1 demoMap "sess" demoClient 42
    [("subject", Val.vstr "New title")] demoEntity (Val.vint 7)
    rfl (by simp) rfl rfl rfl

/-- C2: every update operation called under a valid session with an empty
change set issues only the single get (no edit, hence no write) and, when
that get succeeds, returns the fetched entity unchanged. -/
theorem claim_C2_empty_changeset_no_write :
    (∀ (m : SessionMap) (sid : String) (c : TaigaClientWrapper) (eid : Nat),
      get_authenticated_client m sid = Except.ok c →
      (update_project m sid eid []).2 = [ApiCall.get eid]
      ∧ ∀ ent, c.api.projects.getResult eid = Except.ok ent →
          (update_project m sid eid []).1 = Except.ok ent)
    ∧ (∀ (m : SessionMap) (sid : String) (c : TaigaClientWrapper) (eid : Nat),
      get_authenticated_client m sid = Except.ok c →
      (update_user_story m sid eid []).2 = [ApiCall.get eid]
      ∧ ∀ ent, c.api.user_stories.getResult eid = Except.ok ent →
          (update_user_story m sid eid []).1 = Except.ok ent)
    ∧ (∀ (m : SessionMap) (sid : String) (c : TaigaClientWrapper) (eid : Nat),
      get_authenticated_client m sid = Except.ok c →
      (update_issue m sid eid []).2 = [ApiCall.get eid]
      ∧ ∀ ent, c.api.issues.getResult eid = Except.ok ent →
          (update_issue m sid eid []).1 = Except.ok ent)
    ∧ (∀ (m : SessionMap) (sid : String) (c : TaigaClientWrapper) (eid : Nat),
      get_authenticated_client m sid = Except.ok c →
      (update_epic m sid eid []).2 = [ApiCall.get eid]
      ∧ ∀ ent, c.api.epics.getResult eid = Except.ok ent →
          (update_epic m sid eid []).1 = Except.ok ent)
    ∧ (∀ (m : SessionMap) (sid : String) (c : TaigaClientWrapper) (eid : Nat),
      get_authenticated_client m sid = Except.ok c →
      (update_milestone m sid eid []).2 = [ApiCall.get eid]
      ∧ ∀ ent, c.api.milestones.getResult eid = Except.ok ent →
          (update_milestone m sid eid []).1 = Except.ok ent)
    ∧ (∀ (m : SessionMap) (sid : String) (c : TaigaClientWrapper) (eid : Nat),
      get_authenticated_client m sid = Except.ok c →
      (update_task m sid eid none none none none none none none none []).2
          = [ApiCall.get eid]
      ∧ ∀ ent, c.api.tasks.getResult eid = Except.ok ent →
          (update_task m sid eid none none none none none none none none []).1
            = Except.ok ent) := by
  refine ⟨?_, ?_, ?_, ?_, ?_, ?_⟩
  · intro m sid c eid hc
    have h1 : update_project m sid eid []
        = updateVersioned "project" c.api.projects eid [] := by
      simp [update_project, hc]
    rw [h1]
    exact updateVersioned_nil _ _ _
  · intro m sid c eid hc
    have h1 : update_user_story m sid eid []
        = updateVersioned "user story" c.api.user_stories eid [] := by
      simp [update_user_story, hc]
    rw [h1]
    exact updateVersioned_nil _ _ _
  · intro m sid c eid hc
    have h1 : update_issue m sid eid []
        = updateVersioned "issue" c.api.issues eid [] := by
      simp [update_issue, hc]
    rw [h1]
    exact updateVersioned_nil _ _ _
  · intro m sid c eid hc
    have h1 : update_epic m sid eid []
        = updateVersioned "epic" c.api.epics eid [] := by
      simp [update_epic, hc]
    rw [h1]
    exact updateVersioned_nil _ _ _
  · intro m sid c eid hc
    have h1 : update_milestone m sid eid []
        = updateVersioned "milestone" c.api.milestones eid [] := by
      simp [update_milestone, hc]
    rw [h1]
    exact updateVersioned_nil _ _ _
  · intro m sid c eid hc
    have hb : buildTaskUpdateData none none none none none none none none [] = [] := rfl
    have h1 : update_task m sid eid none none none none none none none none []
        = updateVersioned "task" c.api.tasks eid [] := by
      simp [update_task, hc, hb]
    rw [h1]
    exact updateVersioned_nil _ _ _

/-- C2 witness: the spec scenario D — an update of task 42 with no fields
issues only get(42) and returns its result directly. -/
theorem claim_C2_witness :
    (update_task demoMap "sess" 42 none none none none none none none none []).2
        = [ApiCall.get 42]
    ∧ (update_task demoMap "sess" 42 none none none none none none none none []).1
        = Except.ok demoEntity :=
  ⟨(claim_C2_empty_changeset_no_write.2.2.2.2.2 demoMap "sess" demoClient 42 rfl).1,
   (claim_C2_empty_changeset_no_write.2.2.2.2.2 demoMap "sess" demoClient 42 rfl).2
     demoEntity rfl⟩

/-- C3 (code bug): unassign_task_from_user never issues an edit — passing
`assigned_to=None` to update_task filters the field out, leaving an empty
change set, so the call is a read-only no-op for every session and backend
(first conjunct), contradicting the tool description "sets assigned user to
null"; concretely on the demo backend it only fetches task 42 and returns it
unchanged (second conjunct), while the user story / issue / epic unassign
operations really do issue edit(42, 7, assigned_to=null) (last three
conjuncts). -/
theorem claim_C3_unassign_task_readonly :
    (∀ (m : SessionMap) (sid : String) (task_id : Nat),
      (unassign_task_from_user m sid task_id).2 = []
      ∨ (unassign_task_from_user m sid task_id).2 = [ApiCall.get task_id])
    ∧ unassign_task_from_user demoMap "sess" 42
        = (Except.ok demoEntity, [ApiCall.get 42])
    ∧ unassign_user_story_from_user demoMap "sess" 42
        = (Except.ok (dictUpdate demoEntity [("assigned_to", Val.vnull)]),
           [ApiCall.get 42, ApiCall.edit 42 (Val.vint 7) [("assigned_to", Val.vnull)]])
    ∧ unassign_issue_from_user demoMap "sess" 42
        = (Except.ok (dictUpdate demoEntity [("assigned_to", Val.vnull)]),
           [ApiCall.get 42, ApiCall.edit 42 (Val.vint 7) [("assigned_to", Val.vnull)]])
    ∧ unassign_epic_from_user demoMap "sess" 42
        = (Except.ok (dictUpdate demoEntity [("assigned_to", Val.vnull)]),
           [ApiCall.get 42, ApiCall.edit 42 (Val.vint 7) [("assigned_to", Val.vnull)]]) := by
  refine ⟨?_, rfl, rfl, rfl, rfl⟩
  intro m sid task_id
  cases hc : get_authenticated_client m sid with
  | error e =>
    left
    simp [unassign_task_from_user, update_task, hc]
  | ok c =>
    right
    have hb : buildTaskUpdateData none none none none none none none none [] = [] := rfl
    have h1 : unassign_task_from_user m sid task_id
        = updateVersioned "task" c.api.tasks task_id [] := by
      simp [unassign_task_from_user, update_task, hc, hb]
    rw [h1]
    exact (updateVersioned_nil _ _ _).1

/-- C5: for a registered, authenticated session, when the identity check of
session_status fails with the backend API (authentication) error class the
status is inactive (token_invalid), the session is removed, and a subsequent
lookup fails; when it fails with any other error class the status is error
(check_failed), the map is untouched, and a subsequent lookup still
succeeds. -/
theorem claim_C5_lazy_eviction_precision :
    ∀ (m : SessionMap) (sid : String) (w : TaigaClientWrapper),
      (m.map Prod.fst).Nodup →
      smGet m sid = some w → w.is_authenticated = true →
      (∀ msg, w.api.usersMe = Except.error (PyExc.taiga msg) →
        (session_status m sid).2.status = "inactive"
        ∧ (session_status m sid).2.reason = some "token_invalid"
        ∧ smGet (session_status m sid).1 sid = none
        ∧ get_authenticated_client (session_status m sid).1 sid
            = Except.error (PyExc.permission (invalidSessionMsg sid)))
      ∧ (∀ e, w.api.usersMe = Except.error e → e.isTaiga = false →
        (session_status m sid).1 = m
        ∧ (session_status m sid).2.status = "error"
        ∧ (session_status m sid).2.reason = some "check_failed"
        ∧ get_authenticated_client (session_status m sid).1 sid = Except.ok w) := by
  intro m sid w hnd hw hauth
  constructor
  · intro msg hme
    have h1 : session_status m sid
        = ((smPop m sid).2, ⟨"inactive", some "token_invalid", none, sid⟩) := by
      simp [session_status, hw, hauth, hme]
    have h2 : smGet (session_status m sid).1 sid = none := by
      rw [h1]
      exact smGet_after_erase m sid hnd
    exact ⟨by rw [h1], by rw [h1], h2, by simp [get_authenticated_client, h2]⟩
  · intro e hme hnt
    have h1 : session_status m sid = (m, ⟨"error", some "check_failed", none, sid⟩) := by
      cases e <;> simp_all [session_status, PyExc.isTaiga]
    refine ⟨by rw [h1], by rw [h1], by rw [h1], ?_⟩
    rw [h1]
    simp [get_authenticated_client, hw, hauth]

/-- C5 witness: against a backend rejecting the token the demo session is
evicted and reported inactive; against a transiently failing backend it is
kept and reported as a check error, still resolvable. -/
theorem claim_C5_witness :
    ((session_status authFailMap "sess").2.status = "inactive"
      ∧ (session_status authFailMap "sess").2.reason = some "token_invalid"
      ∧ smGet (session_status authFailMap "sess").1 "sess" = none
      ∧ get_authenticated_client (session_status authFailMap "sess").1 "sess"
          = Except.error (PyExc.permission (invalidSessionMsg "sess")))
    ∧ ((session_status netFailMap "sess").1 = netFailMap
      ∧ (session_status netFailMap "sess").2.status = "error"
      ∧ (session_status netFailMap "sess").2.reason = some "check_failed"
      ∧ get_authenticated_client (session_status netFailMap "sess").1 "sess"
          = Except.ok netFailClient) :=
  ⟨(claim_C5_lazy_eviction_precision authFailMap "sess" authFailClient
      (by simp [authFailMap]) rfl rfl).1 "401 Unauthorized" rfl,
   (claim_C5_lazy_eviction_precision netFailMap "sess" netFailClient
      (by simp [netFailMap]) rfl rfl).2 (PyExc.runtime "connection timed out") rfl rfl⟩

/-- C9: a successful login stores the authenticated handle under the fresh
session id and returns that id; two logins under distinct fresh ids give
sessions that each resolve (through the access gate) only to their own
handle.  Freshness of the uuid4-generated ids is a hypothesis (their
collision probability is negligible, not zero). -/
theorem claim_C9_session_isolation :
    ∀ (m : SessionMap) (id1 id2 : String) (api1 api2 : TaigaApi),
      id1 ≠ id2 → smGet m id1 = none → smGet m id2 = none →
      (login m id1 (LoginExchange.success api1)).2 = Except.ok id1
      ∧ (login (login m id1 (LoginExchange.success api1)).1 id2
          (LoginExchange.success api2)).2 = Except.ok id2
      ∧ get_authenticated_client
          (login (login m id1 (LoginExchange.success api1)).1 id2
            (LoginExchange.success api2)).1 id1 = Except.ok ⟨true, api1⟩
      ∧ get_authenticated_client
          (login (login m id1 (LoginExchange.success api1)).1 id2
            (LoginExchange.success api2)).1 id2 = Except.ok ⟨true, api2⟩ := by
  intro m id1 id2 api1 api2 hne h1 h2
  have hm1 : (login m id1 (LoginExchange.success api1)).1
      = m ++ [(id1, ⟨true, api1⟩)] := smInsert_fresh m id1 _ h1
  have h2m : smGet (m ++ [(id1, ⟨true, api1⟩)]) id2 = none := by
    rw [smGet_append_of_none m _ id2 h2, smGet_cons_ne _ id1 id2 _ hne]
    rfl
  have hm2 : (login (login m id1 (LoginExchange.success api1)).1 id2
      (LoginExchange.success api2)).1
      = m ++ [(id1, ⟨true, api1⟩), (id2, ⟨true, api2⟩)] := by
    rw [hm1]
    have h3 := smInsert_fresh (m ++ [(id1, ⟨true, api1⟩)]) id2 ⟨true, api2⟩ h2m
    rw [List.append_assoc, List.singleton_append] at h3
    exact h3
  have hg1 : smGet (m ++ [(id1, ⟨true, api1⟩), (id2, ⟨true, api2⟩)]) id1
      = some ⟨true, api1⟩ := by
    rw [smGet_append_of_none m _ id1 h1]
    exact smGet_cons_self _ id1 _
  have hg2 : smGet (m ++ [(id1, ⟨true, api1⟩), (id2, ⟨true, api2⟩)]) id2
      = some ⟨true, api2⟩ := by
    rw [smGet_append_of_none m _ id2 h2, smGet_cons_ne _ id1 id2 _ hne]
    exact smGet_cons_self _ id2 _
  refine ⟨rfl, rfl, ?_, ?_⟩
  · rw [hm2]
    simp [get_authenticated_client, hg1]
  · rw [hm2]
    simp [get_authenticated_client, hg2]

/-- C9 witness: two concrete logins under distinct fresh ids on the empty
registry; each id resolves to its own handle. -/
theorem claim_C9_witness :
    (login [] "id-a" (LoginExchange.success demoTaigaApi)).2 = Except.ok "id-a"
    ∧ (login (login [] "id-a" (LoginExchange.success demoTaigaApi)).1 "id-b"
        (LoginExchange.success noVersionClient.api)).2 = Except.ok "id-b"
    ∧ get_authenticated_client
        (login (login [] "id-a" (LoginExchange.success demoTaigaApi)).1 "id-b"
          (LoginExchange.success noVersionClient.api)).1 "id-a"
        = Except.ok ⟨true, demoTaigaApi⟩
    ∧ get_authenticated_client
        (login (login [] "id-a" (LoginExchange.success demoTaigaApi)).1 "id-b"
          (LoginExchange.success noVersionClient.api)).1 "id-b"
        = Except.ok ⟨true, noVersionClient.api⟩ :=
  claim_C9_session_isolation [] "id-a" "id-b" demoTaigaApi noVersionClient.api
    (by decide) rfl rfl

/-- C7 counterexample: the claim "fails with VersionUnavailable iff the
fetch fails or the fetched entity carries no version field" is false in both
directions.  (i) When the pre-write fetch of user story 42 fails (backend
404), the operation propagates that backend error, not the
VersionUnavailable error.  (ii) When the fetch succeeds with an entity
whose version field is present but 0 (falsy), the operation does fail with
VersionUnavailable even though the entity carries a version field. -/
theorem claim_C7_counterexample :
    (update_user_story getFailMap "sess" 42 [("subject", Val.vstr "New title")]).1
        = Except.error (PyExc.taiga "404 Not Found")
    ∧ PyExc.taiga "404 Not Found" ≠ versionUnavailableExc "user story" 42
    ∧ zeroVersionApi.getResult 42 = Except.ok [("version", Val.vint 0)]
    ∧ dictGet [(("version" : String), Val.vint 0)] "version" = some (Val.vint 0)
    ∧ (update_user_story zeroVersionMap "sess" 42 [("subject", Val.vstr "New title")]).1
        = Except.error (versionUnavailableExc "user story" 42) := by
  refine ⟨rfl, ?_, rfl, rfl, rfl⟩
  simp [versionUnavailableExc, handleToolExc, handle_general_exception]

/-- C7 (amended): provided the backend raises its API exception class for
failing get/edit calls, every update operation with a non-empty change set
fails with the VersionUnavailable error (the wrapped "Could not determine
version" ValueError) if and only if the pre-write fetch succeeds but yields
no truthy version value (field absent, null or 0); when the fetch itself
fails, that error propagates instead; whenever the operation fails with
VersionUnavailable, only the get was issued — no edit. -/
theorem claim_C7_version_unavailable :
    (∀ (m : SessionMap) (sid : String) (c : TaigaClientWrapper) (eid : Nat)
        (changes : List (String × Val)),
      get_authenticated_client m sid = Except.ok c → changes ≠ [] →
      (∀ e, c.api.projects.getResult eid = Except.error e → e.isTaiga = true) →
      (∀ v cs e, c.api.projects.editResult eid v cs = Except.error e → e.isTaiga = true) →
      ((update_project m sid eid changes).1
          = Except.error (versionUnavailableExc "project" eid)
        ↔ ∃ ent, c.api.projects.getResult eid = Except.ok ent
            ∧ versionTruthy (dictGet ent "version") = false)
      ∧ ((update_project m sid eid changes).1
            = Except.error (versionUnavailableExc "project" eid) →
          (update_project m sid eid changes).2 = [ApiCall.get eid]))
    ∧ (∀ (m : SessionMap) (sid : String) (c : TaigaClientWrapper) (eid : Nat)
        (changes : List (String × Val)),
      get_authenticated_client m sid = Except.ok c → changes ≠ [] →
      (∀ e, c.api.user_stories.getResult eid = Except.error e → e.isTaiga = true) →
      (∀ v cs e, c.api.user_stories.editResult eid v cs = Except.error e → e.isTaiga = true) →
      ((update_user_story m sid eid changes).1
          = Except.error (versionUnavailableExc "user story" eid)
        ↔ ∃ ent, c.api.user_stories.getResult eid = Except.ok ent
            ∧ versionTruthy (dictGet ent "version") = false)
      ∧ ((update_user_story m sid eid changes).1
            = Except.error (versionUnavailableExc "user story" eid) →
          (update_user_story m sid eid changes).2 = [ApiCall.get eid]))
    ∧ (∀ (m : SessionMap) (sid : String) (c : TaigaClientWrapper) (eid : Nat)
        (changes : List (String × Val)),
      get_authenticated_client m sid = Except.ok c → changes ≠ [] →
      (∀ e, c.api.issues.getResult eid = Except.error e → e.isTaiga = true) →
      (∀ v cs e, c.api.issues.editResult eid v cs = Except.error e → e.isTaiga = true) →
      ((update_issue m sid eid changes).1
          = Except.error (versionUnavailableExc "issue" eid)
        ↔ ∃ ent, c.api.issues.getResult eid = Except.ok ent
            ∧ versionTruthy (dictGet ent "version") = false)
      ∧ ((update_issue m sid eid changes).1
            = Except.error (versionUnavailableExc "issue" eid) →
          (update_issue m sid eid changes).2 = [ApiCall.get eid]))
    ∧ (∀ (m : SessionMap) (sid : String) (c : TaigaClientWrapper) (eid : Nat)
        (changes : List (String × Val)),
      get_authenticated_client m sid = Except.ok c → changes ≠ [] →
      (∀ e, c.api.epics.getResult eid = Except.error e → e.isTaiga = true) →
      (∀ v cs e, c.api.epics.editResult eid v cs = Except.error e → e.isTaiga = true) →
      ((update_epic m sid eid changes).1
          = Except.error (versionUnavailableExc "epic" eid)
        ↔ ∃ ent, c.api.epics.getResult eid = Except.ok ent
            ∧ versionTruthy (dictGet ent "version") = false)
      ∧ ((update_epic m sid eid changes).1
            = Except.error (versionUnavailableExc "epic" eid) →
          (update_epic m sid eid changes).2 = [ApiCall.get eid]))
    ∧ (∀ (m : SessionMap) (sid : String) (c : TaigaClientWrapper) (eid : Nat)
        (changes : List (String × Val)),
      get_authenticated_client m sid = Except.ok c → changes ≠ [] →
      (∀ e, c.api.milestones.getResult eid = Except.error e → e.isTaiga = true) →
      (∀ v cs e, c.api.milestones.editResult eid v cs = Except.error e → e.isTaiga = true) →
      ((update_milestone m sid eid changes).1
          = Except.error (versionUnavailableExc "milestone" eid)
        ↔ ∃ ent, c.api.milestones.getResult eid = Except.ok ent
            ∧ versionTruthy (dictGet ent "version") = false)
      ∧ ((update_milestone m sid eid changes).1
            = Except.error (versionUnavailableExc "milestone" eid) →
          (update_milestone m sid eid changes).2 = [ApiCall.get eid]))
    ∧ (∀ (m : SessionMap) (sid : String) (c : TaigaClientWrapper) (eid : Nat)
        (subject description due_date tags : Option String)
        (assigned_to milestone_id status_id user_story_id : Option Int)
        (kwargs : List (String × Val)),
      get_authenticated_client m sid = Except.ok c →
      buildTaskUpdateData subject description due_date tags
        assigned_to milestone_id status_id user_story_id kwargs ≠ [] →
      (∀ e, c.api.tasks.getResult eid = Except.error e → e.isTaiga = true) →
      (∀ v cs e, c.api.tasks.editResult eid v cs = Except.error e → e.isTaiga = true) →
      ((update_task m sid eid subject description due_date tags
            assigned_to milestone_id status_id user_story_id kwargs).1
          = Except.error (versionUnavailableExc "task" eid)
        ↔ ∃ ent, c.api.tasks.getResult eid = Except.ok ent
            ∧ versionTruthy (dictGet ent "version") = false)
      ∧ ((update_task m sid eid subject description due_date tags
              assigned_to milestone_id status_id user_story_id kwargs).1
            = Except.error (versionUnavailableExc "task" eid) →
          (update_task m sid eid subject description due_date tags
              assigned_to milestone_id status_id user_story_id kwargs).2
            = [ApiCall.get eid])) := by
  refine ⟨?_, ?_, ?_, ?_, ?_, ?_⟩
  · intro m sid c eid changes hc hne hgc hec
    have h1 : update_project m sid eid changes
        = updateVersioned "project" c.api.projects eid changes := by
      simp [update_project, hc]
    rw [h1]
    exact updateVersioned_version_unavailable _ _ _ _ hne hgc hec
  · intro m sid c eid changes hc hne hgc hec
    have h1 : update_user_story m sid eid changes
        = updateVersioned "user story" c.api.user_stories eid changes := by
      simp [update_user_story, hc]
    rw [h1]
    exact updateVersioned_version_unavailable _ _ _ _ hne hgc hec
  · intro m sid c eid changes hc hne hgc hec
    have h1 : update_issue m sid eid changes
        = updateVersioned "issue" c.api.issues eid changes := by
      simp [update_issue, hc]
    rw [h1]
    exact updateVersioned_version_unavailable _ _ _ _ hne hgc hec
  · intro m sid c eid changes hc hne hgc hec
    have h1 : update_epic m sid eid changes
        = updateVersioned "epic" c.api.epics eid changes := by
      simp [update_epic, hc]
    rw [h1]
    exact updateVersioned_version_unavailable _ _ _ _ hne hgc hec
  · intro m sid c eid changes hc hne hgc hec
    have h1 : update_milestone m sid eid changes
        = updateVersioned "milestone" c.api.milestones eid changes := by
      simp [update_milestone, hc]
    rw [h1]
    exact updateVersioned_version_unavailable _ _ _ _ hne hgc hec
  · intro m sid c eid subject description due_date tags assigned_to milestone_id
      status_id user_story_id kwargs hc hne hgc hec
    have h1 : update_task m sid eid subject description due_date tags
          assigned_to milestone_id status_id user_story_id kwargs
        = updateVersioned "task" c.api.tasks eid
            (buildTaskUpdateData subject description due_date tags
              assigned_to milestone_id status_id user_story_id kwargs) := by
      simp [update_task, hc]
    rw [h1]
    exact updateVersioned_version_unavailable _ _ _ _ hne hgc hec

/-- C7 witness: on a backend whose get succeeds without a version field
(and whose failures are API-class), a non-empty user story update fails with
the VersionUnavailable error. -/
theorem claim_C7_witness :
    (update_user_story noVersionMap "sess" 42 [("subject", Val.vstr "X")]).1
      = Except.error (versionUnavailableExc "user story" 42) :=
  ((claim_C7_version_unavailable.2.1 noVersionMap "sess" noVersionClient 42
      [("subject", Val.vstr "X")] rfl (by simp)
      (fun e h => by simp [noVersionClient, noVersionApi] at h)
      (fun v cs e h => by
        have h2 : PyExc.taiga "400 Bad Request" = e := by
          injection h
        rw [← h2]
        rfl)).1).mpr
    ⟨[("id", Val.vint 42)], rfl, rfl⟩

/-- C10: under a valid session whose member search succeeds, when more than
one project member matches the query assign_task_by_username returns the
structured multiple-matches result listing the matching users and issues no
further backend call (in particular no get/edit for the task); when no
member matches it fails with the ValueError and likewise issues no further
call. -/
theorem claim_C10_assign_by_username_matches :
    ∀ (m : SessionMap) (sid : String) (task_id project_id : Nat)
      (username : String) (users : List Entity),
      search_users m sid project_id username
        = (Except.ok users, [ApiCall.listMemberships project_id]) →
      (users.length > 1 →
        assign_task_by_username m sid task_id project_id username
          = (Except.ok (multipleMatchesDict username users),
             [ApiCall.listMemberships project_id]))
      ∧ (users = [] →
        assign_task_by_username m sid task_id project_id username
          = (Except.error (PyExc.valueErr (noUserFoundMsg username project_id)),
             [ApiCall.listMemberships project_id])) := by
  intro m sid task_id project_id username users hs
  constructor
  · intro hlen
    obtain ⟨u1, u2, rest, rfl⟩ : ∃ a b t, users = a :: b :: t := by
      match users, hlen with
      | a :: b :: t, _ => exact ⟨a, b, t, rfl⟩
    have hgt : (u1 :: u2 :: rest).length > 1 := by
      simp [List.length_cons]
    simp [assign_task_by_username, hs, hgt]
  · intro h
    subst h
    simp [assign_task_by_username, hs]

/-- C10 witness: against the demo membership list the query "bob" matches
two users, so the call returns the multiple-matches result with only the
membership listing in its trace; the query "charlie" matches nobody and
fails with the ValueError. -/
theorem claim_C10_witness :
    assign_task_by_username demoMap "sess" 42 5 "bob"
      = (Except.ok (multipleMatchesDict "bob" [demoMatch1, demoMatch2]),
         [ApiCall.listMemberships 5])
    ∧ assign_task_by_username demoMap "sess" 42 5 "charlie"
      = (Except.error (PyExc.valueErr (noUserFoundMsg "charlie" 5)),
         [ApiCall.listMemberships 5]) :=
  ⟨(claim_C10_assign_by_username_matches demoMap "sess" 42 5 "bob"
      [demoMatch1, demoMatch2] (by rfl)).1 (by decide),
   (claim_C10_assign_by_username_matches demoMap "sess" 42 5 "charlie" [] (by rfl)).2 rfl⟩

end TaigaMcp
